import Mathlib

/-!
Shallow embedding of `libcloud/drivers/gogrid.py` (the GoGrid driver of the
libcloud repository) and proofs about it.

Modelling conventions:
* Decoded JSON values (and the Python values they become under `json.loads`)
  are modelled by the inductive type `Json`; Python `None` and JSON `null`
  are both `Json.null`, exactly as `json.loads` maps `null` to `None`.
* A raw HTTP body is modelled by `RawBody`: `empty` is a falsy body (the
  empty string), `notJson t` is a non-empty body `t` on which `json.loads`
  raises `ValueError`, and `json v` is a non-empty body that decodes to `v`.
* Python exceptions are modelled by the `PyErr` type; fallible code returns
  `Except PyErr _`.  `invalidCreds`, `malformedResponse` and `libcloudError`
  model the exception classes imported from `libcloud.types` (that module is
  not part of the sources here; only the class names and constructor
  arguments visible in `gogrid.py` are used).
* Network fetches (`self.connection.request(...)`) are external collaborators:
  each operation takes the fetched, already-decoded envelope (or the failure
  of the fetch) as an explicit argument.
-/

/-- Decoded JSON / Python values.  Objects are association lists (decoded
Python dicts have unique keys; lookup takes the first occurrence). -/
inductive Json where
  | null : Json
  | bool : Bool → Json
  | num : Int → Json
  | str : String → Json
  | arr : List Json → Json
  | obj : List (String × Json) → Json

mutual

/-- Structural equality of `Json` values, modelling Python `==` on decoded
JSON data. -/
def Json.beq : Json → Json → Bool
  | .null, .null => true
  | .bool a, .bool b => a == b
  | .num a, .num b => a == b
  | .str a, .str b => a == b
  | .arr a, .arr b => Json.beqList a b
  | .obj a, .obj b => Json.beqFields a b
  | _, _ => false

/-- Pointwise equality of JSON arrays. -/
def Json.beqList : List Json → List Json → Bool
  | [], [] => true
  | x :: xs, y :: ys => Json.beq x y && Json.beqList xs ys
  | _, _ => false

/-- Pointwise equality of JSON object fields. -/
def Json.beqFields : List (String × Json) → List (String × Json) → Bool
  | [], [] => true
  | (k1, v1) :: xs, (k2, v2) :: ys => k1 == k2 && Json.beq v1 v2 && Json.beqFields xs ys
  | _, _ => false

end

/-- Python truthiness of a decoded JSON value (`if x:`). -/
def Json.truthy : Json → Bool
  | .null => false
  | .bool b => b
  | .num n => n != 0
  | .str s => s != ""
  | .arr l => !l.isEmpty
  | .obj f => !f.isEmpty

/-- Raw association-list lookup inside a JSON object (Python dict lookup). -/
def jget : List (String × Json) → String → Option Json
  | [], _ => none
  | (k, v) :: rest, key => if k == key then some v else jget rest key

/-- Python exceptions that the code under study can raise.  The first three
model the `libcloud.types` exception classes used by the driver, the rest
model built-in Python exceptions. -/
inductive PyErr where
  | invalidCreds (msg : String) : PyErr
  | malformedResponse (msg : String) (body : String) : PyErr
  | libcloudError (msg : String) : PyErr
  | keyError (key : String) : PyErr
  | indexError : PyErr
  | typeError : PyErr
  | attributeError : PyErr
  | valueError : PyErr
deriving DecidableEq

/-- Python subscript `v[k]` with a string key: dict lookup raising `KeyError`
on a missing key, `TypeError` on non-dict values. -/
def getItem (v : Json) (k : String) : Except PyErr Json :=
  match v with
  | .obj f =>
      match jget f k with
      | some x => .ok x
      | none => .error (.keyError k)
  | _ => .error .typeError

/-- Python subscript `v[i]` with an integer index: list indexing raising
`IndexError` out of range; a string yields its `i`-th character; a dict
raises `KeyError` (decoded-JSON dict keys are strings); other values raise
`TypeError`. -/
def getIndex (v : Json) (i : Nat) : Except PyErr Json :=
  match v with
  | .arr l =>
      match l.get? i with
      | some x => .ok x
      | none => .error .indexError
  | .str s =>
      match s.toList.get? i with
      | some c => .ok (.str (String.mk [c]))
      | none => .error .indexError
  | .obj _ => .error (.keyError (toString i))
  | _ => .error .typeError

/-- Python `v.get(k)` on a value expected to be a dict: returns the value or
`None` (`Json.null`) when the key is missing; raises `AttributeError` when
`v` is not a dict (in particular when `v` is `None`). -/
def getAttrGet (v : Json) (k : String) : Except PyErr Json :=
  match v with
  | .obj f =>
      match jget f k with
      | some x => .ok x
      | none => .ok .null
  | _ => .error .attributeError

/-- Raw HTTP response body as seen by `GoGridResponse`: a falsy (empty) body,
a non-empty body that is not valid JSON (with its text), or a body decoding
to a JSON value. -/
inductive RawBody where
  | empty : RawBody
  | notJson (text : String) : RawBody
  | json (v : Json) : RawBody

/-- `GoGridResponse.success` (gogrid.py lines 80-90): raises
`InvalidCredsError` on HTTP 403/401, returns `None` on an empty body,
raises `MalformedResponseError` when `json.loads` fails (`ValueError`
caught), and otherwise evaluates `json.loads(body)['status'] == 'success'`
(the subscript's `KeyError`/`TypeError` is not caught). -/
def success (status : Nat) (body : RawBody) : Except PyErr (Option Bool) :=
  if status = 403 then
    .error (.invalidCreds "Invalid credentials")
  else if status = 401 then
    .error (.invalidCreds "API Key has insufficient rights")
  else
    match body with
    | .empty => .ok none
    | .notJson text => .error (.malformedResponse "Malformed reply" text)
    | .json v =>
        match getItem v "status" with
        | .ok sv => .ok (some (Json.beq sv (.str "success")))
        | .error e => .error e

/-- `GoGridResponse.parse_body` (gogrid.py lines 92-95). -/
def parse_body (body : RawBody) : Except PyErr (Option Json) :=
  match body with
  | .empty => .ok none
  | .notJson _ => .error .valueError
  | .json v => .ok (some v)

/-- `GoGridResponse.parse_error` (gogrid.py lines 97-101):
`json.loads(body)["list"][0]['message']` with only `ValueError` caught
(returning `None`, i.e. `Json.null`); the lookup errors of the subscripts
propagate. -/
def parse_error (body : RawBody) : Except PyErr Json :=
  match body with
  | .empty => .ok .null
  | .notJson _ => .ok .null
  | .json v =>
      match getItem v "list" with
      | .error e => .error e
      | .ok lv =>
          match getIndex lv 0 with
          | .error e => .error e
          | .ok e0 => getItem e0 "message"

/-- Modelled from the spec: the abstract node lifecycle states named in the
node-state mapping table (the enum `libcloud.types.NodeState` is part of the
repository but not among the sources here; only its member names are used by
the driver). -/
inductive NodeState where
  | running : NodeState
  | rebooting : NodeState
  | terminated : NodeState
  | pending : NodeState
  | unknown : NodeState
deriving DecidableEq

/-- The driver's `STATE` table (gogrid.py lines 37-44). -/
def STATE : List (String × NodeState) :=
  [("Starting", .pending),
   ("On", .running),
   ("Off", .pending),
   ("Restarting", .rebooting),
   ("Saving", .pending),
   ("Restoring", .pending)]

/-- Lookup in the `STATE` dict (`STATE[name]` yields `KeyError`, caught by
the caller's bare `except`, when the name is not a key). -/
def stateLookup : List (String × NodeState) → String → Option NodeState
  | [], _ => none
  | (k, v) :: rest, key => if k == key then some v else stateLookup rest key

/-- The attempted body of `_get_state`: `STATE[element['state']['name']]`,
each subscript raising as in Python (a dict lookup on a non-string decoded
value raises `KeyError` for hashable values; the unhashable ones raise
`TypeError` — both are swallowed by the caller's bare `except`, so the
distinction is irrelevant and `typeError` stands for them). -/
def _get_state_try (element : Json) : Except PyErr NodeState := do
  let st ← getItem element "state"
  let nm ← getItem st "name"
  match nm with
  | .str s =>
      match stateLookup STATE s with
      | some v => .ok v
      | none => .error (.keyError s)
  | _ => .error .typeError

/-- `GoGridNodeDriver._get_state` (gogrid.py lines 147-152):
`STATE[element['state']['name']]` under a bare `except` that turns every
failure (missing keys, non-dict values, unknown state names) into
`NodeState.UNKNOWN`; the bare `except` makes the function total. -/
def _get_state (element : Json) : NodeState :=
  match _get_state_try element with
  | .ok v => v
  | .error _ => .unknown

/-- `GoGridNodeDriver._get_ip` (gogrid.py lines 154-155):
`element.get('ip').get('ip')`. -/
def _get_ip (element : Json) : Except PyErr Json := do
  let v ← getAttrGet element "ip"
  getAttrGet v "ip"

/-- `GoGridNodeDriver._get_id` (gogrid.py lines 157-158): `element.get('id')`
(`Json.null` when the key is absent, like Python `None`). -/
def _get_id (element : Json) : Except PyErr Json :=
  getAttrGet element "id"

/-- The mapped node entity (`GoGridNode`, a `libcloud.base.Node` with a
derived uuid; the base class, not among the sources here, is a plain record
of the constructor arguments).  The `extra` dict is flattened into its three
possible entries; `extra_password = none` means the `'password'` key is
absent from `extra`. -/
structure GoGridNode where
  id : Json
  name : Json
  state : NodeState
  public_ip : List Json
  private_ip : List Json
  extra_ram : Json
  extra_isSandbox : Bool
  extra_password : Option Json

/-- `GoGridNodeDriver._to_node` (gogrid.py lines 160-175).  The `password`
argument is a Python value (`Json.null` models the `None` default); the
`'password'` entry is attached only when the value is truthy
(`if password:`).  Failures follow source evaluation order: `_get_ip`,
`_get_id`, then the constructor arguments `element['name']`,
`element.get('ram').get('name')`, `element['isSandbox']`. -/
def _to_node (element : Json) (password : Json) : Except PyErr GoGridNode := do
  let state := _get_state element
  let ip ← _get_ip element
  let id ← _get_id element
  let name ← getItem element "name"
  let ram ← getAttrGet element "ram"
  let ramName ← getAttrGet ram "name"
  let sandbox ← getItem element "isSandbox"
  .ok { id := id,
        name := name,
        state := state,
        public_ip := [ip],
        private_ip := [],
        extra_ram := ramName,
        extra_isSandbox := Json.beq sandbox (.str "true"),
        extra_password := if password.truthy then some password else none }

/-- The lookups of one password-loop iteration (gogrid.py line 213):
the right-hand side `password['password']` is evaluated before the subscript
key `password['server']['id']`, matching Python assignment order. -/
def passwordPair (p : Json) : Except PyErr (Json × Json) := do
  let pw ← getItem p "password"
  let server ← getItem p "server"
  let sid ← getItem server "id"
  .ok (sid, pw)

/-- One step of the password-map construction (gogrid.py lines 212-215):
`passwords_map[password['server']['id']] = password['password']` under
`except KeyError: pass`.  A `KeyError` from either lookup is swallowed,
while a `TypeError` (record or `server` value not a dict) propagates.
Assignments prepend, so the lookup `dgetD` (which scans front-first) sees
the latest binding for a key, like a Python dict overwrite. -/
def addPassword (m : List (Json × Json)) (p : Json) : Except PyErr (List (Json × Json)) :=
  match passwordPair p with
  | .ok e => .ok (e :: m)
  | .error (.keyError _) => .ok m
  | .error e => .error e

/-- The `for password in ...` loop of `list_nodes` building `passwords_map`. -/
def buildPasswordMap : List Json → List (Json × Json) → Except PyErr (List (Json × Json))
  | [], m => .ok m
  | p :: ps, m =>
      match addPassword m p with
      | .ok m2 => buildPasswordMap ps m2
      | .error e => .error e

/-- `passwords_map.get(k)`: front-first scan of the association list (the
front holds the most recent assignment), returning `Json.null` (Python
`None`) when no binding exists. -/
def dgetD (m : List (Json × Json)) (k : Json) : Json :=
  match m with
  | [] => .null
  | (k2, v) :: rest => if Json.beq k2 k then v else dgetD rest k

/-- The list comprehension of `list_nodes` (gogrid.py lines 220-222):
`[ self._to_node(el, passwords_map.get(el.get('id'))) for el in res['list'] ]`
(per element, `el.get('id')` is evaluated first, then the map lookup, then
`_to_node`). -/
def mapNodes (m : List (Json × Json)) : List Json → Except PyErr (List GoGridNode)
  | [] => .ok []
  | el :: rest => do
      let idv ← getAttrGet el "id"
      let n ← _to_node el (dgetD m idv)
      let ns ← mapNodes m rest
      .ok (n :: ns)

/-- Python iteration `for x in v` over a decoded JSON value, specialised to
what `list_nodes` needs: a JSON array yields its elements; an empty dict or
empty string yields no elements; any other value either yields non-dict
elements whose first subscript raises `TypeError` (non-empty string, dict
keys) or is not iterable at all (`None`, numbers, booleans), so the loop
body's first string subscript raises `TypeError` in every such case. -/
def iterElems (v : Json) : Except PyErr (List Json) :=
  match v with
  | .arr l => .ok l
  | .obj [] => .ok []
  | .str "" => .ok []
  | _ => .error .typeError

/-- `GoGridNodeDriver.list_nodes` (gogrid.py lines 206-222).  `serverRes` is
the decoded envelope fetched by `self._server_list()`; `passwordRes` is the
outcome of the `self._password_list()` fetch.  The `try ... except
InvalidCredsError: pass` around the password loop swallows exactly an
`InvalidCredsError` raised by the fetch, leaving the map empty; the
`KeyError` of `['list']` and any `TypeError` inside the loop are not caught. -/
def list_nodes (serverRes : Json) (passwordRes : Except PyErr Json) :
    Except PyErr (List GoGridNode) := do
  let passwords_map ←
    match passwordRes with
    | .error (.invalidCreds _) => .ok []
    | .error e => .error e
    | .ok pRes => do
        let lv ← getItem pRes "list"
        let ps ← iterElems lv
        buildPasswordMap ps []
  let lv2 ← getItem serverRes "list"
  let els ← iterElems lv2
  mapNodes passwords_map els

/-- `GoGridNodeDriver._get_first_ip` (gogrid.py lines 256-265): on the
decoded envelope of the unassigned-IP listing, `if object['list']:` (Python
truthiness) returns `object['list'][0]['ip']`, else raises
`LibcloudError('No public unassigned IPs left')`. -/
def _get_first_ip (ipRes : Json) : Except PyErr Json := do
  let lv ← getItem ipRes "list"
  if lv.truthy then do
    let e0 ← getIndex lv 0
    getItem e0 "ip"
  else
    .error (.libcloudError "No public unassigned IPs left")

/-- `GoGridNodeDriver.ex_create_node_nowait` (gogrid.py lines 277-299):
acquires an unassigned IP (its value only feeds the outgoing request, an
external effect), POSTs, and maps `object['list'][0]` to a node with no
password. -/
def ex_create_node_nowait (ipRes : Json) (addRes : Json) : Except PyErr GoGridNode := do
  let _first_ip ← _get_first_ip ipRes
  let lv ← getItem addRes "list"
  let e0 ← getIndex lv 0
  _to_node e0 .null

/-- The inner `for i in nodes:` scan of `create_node` (gogrid.py lines
320-322): returns the first `i` with `i.public_ip[0] == node.public_ip[0]`
and `i.id is not None`; `[0]` on an empty address list raises `IndexError`. -/
def scanMatch (node : GoGridNode) : List GoGridNode → Except PyErr (Option GoGridNode)
  | [] => .ok none
  | i :: rest =>
      match i.public_ip.head?, node.public_ip.head? with
      | some a, some b =>
          if Json.beq a b && !(Json.beq i.id .null) then .ok (some i)
          else scanMatch node rest
      | _, _ => .error .indexError

/-- The polling loop of `create_node` (gogrid.py lines 313-330), with
`timeout = 1200`, `interval = 120`.  Each tick fetches the server and
password envelopes `polls (waittime / 120)` and runs `list_nodes` on them.
The `fuel` argument is the number of remaining ticks: starting from 10 it
reaches 0 exactly when `waittime` reaches the timeout, so the `fuel = 0` arm
coincides with the loop exit.  After the loop the source tests
`if id is None` where `id` is the Python *builtin function* (the local name
`id` is never bound in `create_node`), which is never `None`: the
"Wasn't able to wait for id allocation" exception is unreachable and the
still-unidentified `node` is returned. -/
def create_node_go (node : GoGridNode) (polls : Nat → Json × Except PyErr Json)
    (waittime : Nat) : Nat → Except PyErr GoGridNode
  | 0 => .ok node
  | fuel + 1 =>
      if Json.beq node.id .null && decide (waittime < 1200) then do
        let nodes ← list_nodes (polls (waittime / 120)).1 (polls (waittime / 120)).2
        match scanMatch node nodes with
        | .error e => .error e
        | .ok (some i) => .ok i
        | .ok none => create_node_go node polls (waittime + 120) fuel
      else
        .ok node

/-- `GoGridNodeDriver.create_node` (gogrid.py lines 301-330): the blocking
wrapper around `ex_create_node_nowait` and the polling loop. -/
def create_node (ipRes addRes : Json) (polls : Nat → Json × Except PyErr Json) :
    Except PyErr GoGridNode := do
  let node ← ex_create_node_nowait ipRes addRes
  create_node_go node polls 0 10

/-- 2^32, the word modulus of MD5 arithmetic. -/
def M32 : Nat := 4294967296

/-- Bitwise complement on 32-bit words. -/
def bnot32 (x : Nat) : Nat := 4294967295 ^^^ (x % M32)

/-- Left rotation of a 32-bit word by `n` places. -/
def rotl32 (x n : Nat) : Nat :=
  (((x % M32) <<< n) % M32) ||| ((x % M32) >>> (32 - n))

/-- The 64 MD5 round constants (`floor(2^32 * abs(sin(i+1)))`). -/
def md5K : List Nat :=
  [0xd76aa478, 0xe8c7b756, 0x242070db, 0xc1bdceee,
   0xf57c0faf, 0x4787c62a, 0xa8304613, 0xfd469501,
   0x698098d8, 0x8b44f7af, 0xffff5bb1, 0x895cd7be,
   0x6b901122, 0xfd987193, 0xa679438e, 0x49b40821,
   0xf61e2562, 0xc040b340, 0x265e5a51, 0xe9b6c7aa,
   0xd62f105d, 0x02441453, 0xd8a1e681, 0xe7d3fbc8,
   0x21e1cde6, 0xc33707d6, 0xf4d50d87, 0x455a14ed,
   0xa9e3e905, 0xfcefa3f8, 0x676f02d9, 0x8d2a4c8a,
   0xfffa3942, 0x8771f681, 0x6d9d6122, 0xfde5380c,
   0xa4beea44, 0x4bdecfa9, 0xf6bb4b60, 0xbebfbc70,
   0x289b7ec6, 0xeaa127fa, 0xd4ef3085, 0x04881d05,
   0xd9d4d039, 0xe6db99e5, 0x1fa27cf8, 0xc4ac5665,
   0xf4292244, 0x432aff97, 0xab9423a7, 0xfc93a039,
   0x655b59c3, 0x8f0ccc92, 0xffeff47d, 0x85845dd1,
   0x6fa87e4f, 0xfe2ce6e0, 0xa3014314, 0x4e0811a1,
   0xf7537e82, 0xbd3af235, 0x2ad7d2bb, 0xeb86d391]

/-- The 64 MD5 per-round left-rotation amounts. -/
def md5S : List Nat :=
  [7, 12, 17, 22, 7, 12, 17, 22, 7, 12, 17, 22, 7, 12, 17, 22,
   5, 9, 14, 20, 5, 9, 14, 20, 5, 9, 14, 20, 5, 9, 14, 20,
   4, 11, 16, 23, 4, 11, 16, 23, 4, 11, 16, 23, 4, 11, 16, 23,
   6, 10, 15, 21, 6, 10, 15, 21, 6, 10, 15, 21, 6, 10, 15, 21]

/-- `n` little-endian bytes of `x`. -/
def lebytes (x : Nat) : Nat → List Nat
  | 0 => []
  | n + 1 => (x % 256) :: lebytes (x / 256) n

/-- MD5 padding: append `0x80`, zero bytes up to 56 mod 64, then the 64-bit
little-endian bit length. -/
def padMsg (msg : List Nat) : List Nat :=
  let len := msg.length
  let zeros := (119 - (len % 64)) % 64
  msg ++ [128] ++ List.replicate zeros 0 ++ lebytes ((len * 8) % (2 ^ 64)) 8

/-- Group a 64-byte chunk into 16 little-endian 32-bit words. -/
def toWords : List Nat → List Nat
  | b0 :: b1 :: b2 :: b3 :: rest =>
      (b0 % 256 + 256 * (b1 % 256 + 256 * (b2 % 256 + 256 * (b3 % 256)))) :: toWords rest
  | _ => []

/-- One MD5 round `i` on state `(a, b, c, d)` with message words `w`. -/
def md5round (w : List Nat) (st : Nat × Nat × Nat × Nat) (i : Nat) :
    Nat × Nat × Nat × Nat :=
  let a := st.1
  let b := st.2.1
  let c := st.2.2.1
  let d := st.2.2.2
  let fg : Nat × Nat :=
    if i < 16 then ((b &&& c) ||| (bnot32 b &&& d), i)
    else if i < 32 then ((d &&& b) ||| (bnot32 d &&& c), (5 * i + 1) % 16)
    else if i < 48 then (b ^^^ c ^^^ d, (3 * i + 5) % 16)
    else (c ^^^ (b ||| bnot32 d), (7 * i) % 16)
  let tmp := (a + fg.1 + md5K.getD i 0 + w.getD fg.2 0) % M32
  (d, (b + rotl32 tmp (md5S.getD i 0)) % M32, b, c)

/-- Process one 64-byte chunk: run the 64 rounds and add the result to the
incoming state, word-wise mod 2^32. -/
def processChunk (st : Nat × Nat × Nat × Nat) (chunk : List Nat) :
    Nat × Nat × Nat × Nat :=
  let w := toWords chunk
  let r := (List.range 64).foldl (md5round w) st
  ((st.1 + r.1) % M32, (st.2.1 + r.2.1) % M32,
   (st.2.2.1 + r.2.2.1) % M32, (st.2.2.2 + r.2.2.2) % M32)

/-- Process a padded message 64 bytes at a time; `fuel` bounds the recursion
(any value at least `l.length / 64 + 1` is exact). -/
def processChunks (st : Nat × Nat × Nat × Nat) : Nat → List Nat → Nat × Nat × Nat × Nat
  | 0, _ => st
  | _ + 1, [] => st
  | fuel + 1, l => processChunks (processChunk st (l.take 64)) fuel (l.drop 64)

/-- Word-wise reduction of an MD5 state mod 2^32. -/
def norm32 (st : Nat × Nat × Nat × Nat) : Nat × Nat × Nat × Nat :=
  (st.1 % M32, st.2.1 % M32, st.2.2.1 % M32, st.2.2.2 % M32)

/-- The MD5 compression of a byte string into the four 32-bit state words
`(a, b, c, d)`, each reduced mod 2^32. -/
def md5core (msg : List Nat) : Nat × Nat × Nat × Nat :=
  norm32 (processChunks (0x67452301, 0xefcdab89, 0x98badcfe, 0x10325476)
    (padMsg msg).length (padMsg msg))

/-- Lowercase hexadecimal digit. -/
def hexDigit (n : Nat) : Char :=
  if n < 10 then Char.ofNat (48 + n) else Char.ofNat (87 + n % 16)

/-- Two lowercase hex characters of a byte. -/
def hexByte (b : Nat) : List Char :=
  [hexDigit (b / 16 % 16), hexDigit (b % 16)]

/-- `hexdigest()` of an MD5 state: the 16 digest bytes (each word emitted
little-endian) in lowercase hex. -/
def hexOfDigest (st : Nat × Nat × Nat × Nat) : String :=
  String.mk (((lebytes st.1 4 ++ lebytes st.2.1 4 ++ lebytes st.2.2.1 4 ++
    lebytes st.2.2.2 4).map hexByte).flatten)

/-- The hexadecimal MD5 digest of a byte string. -/
def md5hex (msg : List Nat) : String :=
  hexOfDigest (md5core msg)

/-- The decimal byte string `str(n)` of a natural number (Python's `str` of a
non-negative int). -/
def decBytes (n : Nat) : List Nat :=
  match n with
  | 0 => [48]
  | _ => ((Nat.digits 10 n).map (· + 48)).reverse

/-- `GoGridConnection.get_signature` (gogrid.py lines 119-122):
`hashlib.md5(key + secret + str(int(time.time()))).hexdigest()`.  Texts are
byte strings (`List Nat`); `t` is the integer clock reading `int(time.time())`. -/
def get_signature (key secret : List Nat) (t : Nat) : String :=
  hexOfDigest (md5core (key ++ secret ++ decBytes t))

/-- Spec-side: the string carried by a JSON value, if it is one. -/
def asStr : Json → Option String
  | .str s => some s
  | _ => none

/-- Spec-side accessor: the provider state name of a record, along the exact
path `element['state']['name']` read by `_get_state` (absent when any step of
the path is missing or has the wrong shape). -/
def stateNameOf (j : Json) : Option String :=
  ((do
    let st ← getItem j "state"
    getItem st "name" : Except PyErr Json).toOption).bind asStr

/-- Spec-side predicate for the `create_node` polling loop: the record `x`
has a first public address equal to the created node's first public address
and a present (non-`None`) identifier. -/
def matchesRecord (node x : GoGridNode) : Bool :=
  match x.public_ip.head?, node.public_ip.head? with
  | some a, some b => Json.beq a b && !(Json.beq x.id .null)
  | _, _ => false

/-- Spec-side: the `(server id, password)` pair that a password record
contributes to `passwords_map`, or `none` when the record is skipped
(missing `password` field, missing `server` field, or missing `server.id`);
records on which the loop body would raise `TypeError` contribute `none`
here, but such lists make `list_nodes` fail altogether. -/
def passwordEntry (p : Json) : Option (Json × Json) :=
  (passwordPair p).toOption

/-- Spec-side: the password of the most recent (last-listed) password record
whose server identifier equals `k`, among the records that contribute to the
map. -/
def latestMatch (ps : List Json) (k : Json) : Option Json :=
  (((ps.filterMap passwordEntry).reverse).find? (fun e => Json.beq e.1 k)).map (fun e => e.2)

/-- Claim-side accessor for C7: the server identifier `p['server']['id']` of
a password record, regardless of whether the record carries a password. -/
def serverIdOf (p : Json) : Option Json :=
  match p with
  | .obj pf =>
      match jget pf "server" with
      | some (.obj sf) => jget sf "id"
      | _ => none
  | _ => none

/-- Fixture: a decoded unassigned-IP envelope holding one address. -/
def cIpRes : Json :=
  .obj [("list", .arr [.obj [("ip", .str "10.0.0.1")]])]

/-- Fixture: the provisioning record the `server/add` call returns — note the
absent `id`, the asynchronous-allocation case. -/
def cAddRecord : Json :=
  .obj [("name", .str "test1"),
        ("state", .obj [("name", .str "Starting")]),
        ("ip", .obj [("ip", .str "10.0.0.1")]),
        ("ram", .obj [("name", .str "512MB")]),
        ("isSandbox", .str "false")]

/-- Fixture: the decoded `server/add` envelope. -/
def cAddRes : Json := .obj [("list", .arr [cAddRecord])]

/-- Fixture: the node mapped from `cAddRecord` — its provider identifier is
absent (`Json.null`). -/
def cPendingNode : GoGridNode :=
  { id := .null,
    name := .str "test1",
    state := .pending,
    public_ip := [.str "10.0.0.1"],
    private_ip := [],
    extra_ram := .str "512MB",
    extra_isSandbox := false,
    extra_password := none }

/-- Fixture: polls whose server list is always empty (the provider never
reports the created node with an identifier). -/
def cEmptyPolls : Nat → Json × Except PyErr Json :=
  fun _ => (.obj [("list", .arr [])], .ok (.obj [("list", .arr [])]))

/-- Fixture: the later server-list record for the same node, now carrying the
provider-issued identifier and running state. -/
def cResolvedRecord : Json :=
  .obj [("id", .num 90967),
        ("name", .str "test1"),
        ("state", .obj [("name", .str "On")]),
        ("ip", .obj [("ip", .str "10.0.0.1")]),
        ("ram", .obj [("name", .str "512MB")]),
        ("isSandbox", .str "false")]

/-- Fixture: the node mapped from `cResolvedRecord`. -/
def cResolvedNode : GoGridNode :=
  { id := .num 90967,
    name := .str "test1",
    state := .running,
    public_ip := [.str "10.0.0.1"],
    private_ip := [],
    extra_ram := .str "512MB",
    extra_isSandbox := false,
    extra_password := none }

/-- Fixture: polls whose first server list already contains
`cResolvedRecord`. -/
def cMatchPolls : Nat → Json × Except PyErr Json :=
  fun _ => (.obj [("list", .arr [cResolvedRecord])], .ok (.obj [("list", .arr [])]))

/-- Fixture: a server-list envelope with a single identified record. -/
def cServerRes : Json := .obj [("list", .arr [cResolvedRecord])]

/-- Fixture: a password record that names server 90967 but carries no
`password` field. -/
def cPwRecordNoPassword : Json :=
  .obj [("server", .obj [("id", .num 90967)])]

/-- Fixture: a password-list envelope holding only `cPwRecordNoPassword`. -/
def cPasswordResNoPassword : Json :=
  .obj [("list", .arr [cPwRecordNoPassword])]

/-- Fixture: a password record correlating server 90967 with a password. -/
def cPwRecord : Json :=
  .obj [("server", .obj [("id", .num 90967)]), ("password", .str "topsecret")]

/-- Fixture: a password-list envelope holding only `cPwRecord`. -/
def cPasswordRes : Json := .obj [("list", .arr [cPwRecord])]

/-- Fixture: `cResolvedNode` with the correlated password attached. -/
def cResolvedNodeWithPassword : GoGridNode :=
  { cResolvedNode with extra_password := some (.str "topsecret") }

theorem Json.beq_str_iff (v : Json) (s : String) :
    Json.beq v (.str s) = true ↔ v = .str s := by
  cases v <;> simp [Json.beq]

theorem Json.beq_null_iff (v : Json) :
    Json.beq v .null = true ↔ v = .null := by
  cases v <;> simp [Json.beq]

/-- C4: response classification.  Status 403 raises the invalid-credentials
authentication error and 401 the insufficient-rights one (whatever the
body); otherwise an empty body returns `None` without raising, a non-empty
non-JSON body raises `MalformedResponseError` carrying the body text, and a
JSON body whose object has a `status` field yields `True` exactly when that
field equals the string `'success'`. -/
theorem c4_success_classification :
    (∀ body, success 403 body = .error (.invalidCreds "Invalid credentials")) ∧
    (∀ body, success 401 body = .error (.invalidCreds "API Key has insufficient rights")) ∧
    (∀ status : Nat, status ≠ 403 → status ≠ 401 → success status .empty = .ok none) ∧
    (∀ (status : Nat) (text : String), status ≠ 403 → status ≠ 401 →
      success status (.notJson text) = .error (.malformedResponse "Malformed reply" text)) ∧
    (∀ (status : Nat) (fields : List (String × Json)) (sv : Json),
      status ≠ 403 → status ≠ 401 → jget fields "status" = some sv →
      ∃ b, success status (.json (.obj fields)) = .ok (some b) ∧
        (b = true ↔ sv = .str "success")) := by
  refine ⟨fun body => by simp [success], fun body => by simp [success], ?_, ?_, ?_⟩
  · intro status h403 h401
    simp [success, h403, h401]
  · intro status text h403 h401
    simp [success, h403, h401]
  · intro status fields sv h403 h401 hsv
    refine ⟨Json.beq sv (.str "success"), ?_, Json.beq_str_iff sv "success"⟩
    simp [success, h403, h401, getItem, hsv]

theorem c4_success_classification_witness :
    success 200 .empty = .ok none ∧
    success 200 (.notJson "<html>err") =
      .error (.malformedResponse "Malformed reply" "<html>err") ∧
    ∃ b, success 200 (.json (.obj [("status", .str "success")])) = .ok (some b) ∧
      (b = true ↔ Json.str "success" = .str "success") :=
  ⟨c4_success_classification.2.2.1 200 (by decide) (by decide),
   c4_success_classification.2.2.2.1 200 "<html>err" (by decide) (by decide),
   c4_success_classification.2.2.2.2 200 [("status", .str "success")] (.str "success")
     (by decide) (by decide) rfl⟩

/-- C10: when the status is neither 401 nor 403 and the body is valid JSON
whose top-level object has no `status` field (e.g. a `list` envelope),
`success` raises the uncaught `KeyError` of the `['status']` subscript
rather than returning a no-success value or a classified error. -/
theorem c10_success_missing_status_raises :
    ∀ (status : Nat) (fields : List (String × Json)),
      status ≠ 403 → status ≠ 401 → jget fields "status" = none →
      success status (.json (.obj fields)) = .error (.keyError "status") := by
  intro status fields h403 h401 hnone
  simp [success, h403, h401, getItem, hnone]

theorem c10_success_missing_status_raises_witness :
    success 200 (.json (.obj [("list", .arr [])])) = .error (.keyError "status") :=
  c10_success_missing_status_raises 200 [("list", .arr [])] (by decide) (by decide) rfl

/-- C3 fails on the code: `parse_error` catches only `ValueError`, so a body
that is valid JSON but lacks the `list` shape raises an uncaught lookup
error — here the realistic failing body `{"status": "failure"}` raises
`KeyError('list')` instead of returning empty. -/
theorem c3_counterexample :
    parse_error (.json (.obj [("status", .str "failure")])) =
      .error (.keyError "list") := rfl

/-- C3 as amended: `parse_error` returns empty (`None`) for an empty or
non-JSON body, because the `ValueError` of JSON decoding is caught; it
returns the first list entry's `message` when that path exists; but on a
valid JSON body without the `list` shape the lookup error (`KeyError` /
`IndexError`) propagates — only `ValueError` is suppressed. -/
theorem c3_amended_parse_error :
    (parse_error .empty = .ok .null) ∧
    (∀ text, parse_error (.notJson text) = .ok .null) ∧
    (∀ (fields e0f : List (String × Json)) (rest : List Json) (msgv : Json),
      jget fields "list" = some (.arr (.obj e0f :: rest)) →
      jget e0f "message" = some msgv →
      parse_error (.json (.obj fields)) = .ok msgv) ∧
    (∀ fields : List (String × Json), jget fields "list" = none →
      parse_error (.json (.obj fields)) = .error (.keyError "list")) ∧
    (∀ fields : List (String × Json), jget fields "list" = some (.arr []) →
      parse_error (.json (.obj fields)) = .error .indexError) ∧
    (∀ (fields e0f : List (String × Json)) (rest : List Json),
      jget fields "list" = some (.arr (.obj e0f :: rest)) →
      jget e0f "message" = none →
      parse_error (.json (.obj fields)) = .error (.keyError "message")) := by
  refine ⟨rfl, fun text => rfl, ?_, ?_, ?_, ?_⟩
  · intro fields e0f rest msgv hlist hmsg
    simp [parse_error, getItem, getIndex, hlist, hmsg]
  · intro fields hlist
    simp [parse_error, getItem, hlist]
  · intro fields hlist
    simp [parse_error, getItem, getIndex, hlist]
  · intro fields e0f rest hlist hmsg
    simp [parse_error, getItem, getIndex, hlist, hmsg]

theorem c3_amended_parse_error_witness :
    parse_error (.json (.obj [("list", .arr [.obj [("message", .str "No object found")]])])) =
      .ok (.str "No object found") ∧
    parse_error (.json (.obj [("list", .arr [])])) = .error .indexError ∧
    parse_error (.json (.obj [("list", .arr [.obj [("other", .null)]])])) =
      .error (.keyError "message") :=
  ⟨c3_amended_parse_error.2.2.1 [("list", .arr [.obj [("message", .str "No object found")]])]
     [("message", .str "No object found")] [] (.str "No object found") rfl rfl,
   c3_amended_parse_error.2.2.2.2.1 [("list", .arr [])] rfl,
   c3_amended_parse_error.2.2.2.2.2 [("list", .arr [.obj [("other", .null)]])]
     [("other", .null)] [] rfl rfl⟩

/-- C8: on the unassigned-IP envelope, a non-empty `list` yields the first
entry's `ip` field and an empty `list` raises the no-resource-available
`LibcloudError`. -/
theorem c8_get_first_ip :
    (∀ fields : List (String × Json), jget fields "list" = some (.arr []) →
      _get_first_ip (.obj fields) = .error (.libcloudError "No public unassigned IPs left")) ∧
    (∀ (fields : List (String × Json)) (e0 : Json) (rest : List Json) (ipv : Json),
      jget fields "list" = some (.arr (e0 :: rest)) →
      getItem e0 "ip" = .ok ipv →
      _get_first_ip (.obj fields) = .ok ipv) := by
  constructor
  · intro fields hlist
    simp [_get_first_ip, getItem, hlist, Json.truthy, Bind.bind, Except.bind]
  · intro fields e0 rest ipv hlist hip
    simp only [_get_first_ip, getItem, getIndex, hlist, Json.truthy, Bind.bind, Except.bind,
      List.isEmpty_cons, Bool.not_false, if_true, List.getElem?_cons_zero]
    exact hip

theorem c8_get_first_ip_witness :
    _get_first_ip (.obj [("list", .arr [])]) =
      .error (.libcloudError "No public unassigned IPs left") ∧
    _get_first_ip cIpRes = .ok (.str "10.0.0.1") :=
  ⟨c8_get_first_ip.1 [("list", .arr [])] rfl,
   c8_get_first_ip.2 [("list", .arr [.obj [("ip", .str "10.0.0.1")]])]
     (.obj [("ip", .str "10.0.0.1")]) [] (.str "10.0.0.1") rfl rfl⟩

theorem except_bind_ok {α β : Type} {a : Except PyErr α} {f : α → Except PyErr β} {b : β} :
    (a >>= f) = .ok b ↔ ∃ x, a = .ok x ∧ f x = .ok b := by
  cases a <;> simp [Bind.bind, Except.bind]

theorem except_toOption_eq_some {α : Type} {a : Except PyErr α} {x : α} :
    a.toOption = some x ↔ a = .ok x := by
  cases a <;> simp [Except.toOption]

theorem asStr_eq_some {v : Json} {s : String} : asStr v = some s ↔ v = .str s := by
  cases v <;> simp [asStr]

theorem stateLookup_state_eq_none (s : String)
    (h : s ∉ (["Starting", "On", "Off", "Restarting", "Saving", "Restoring"] : List String)) :
    stateLookup STATE s = none := by
  simp only [List.mem_cons, List.not_mem_nil, or_false, not_or] at h
  obtain ⟨h1, h2, h3, h4, h5, h6⟩ := h
  simp only [STATE, stateLookup, beq_iff_eq]
  rw [if_neg (fun e => h1 e.symm), if_neg (fun e => h2 e.symm), if_neg (fun e => h3 e.symm),
    if_neg (fun e => h4 e.symm), if_neg (fun e => h5 e.symm), if_neg (fun e => h6 e.symm)]

theorem _get_state_of_stateNameOf (j : Json) (s : String) (h : stateNameOf j = some s) :
    _get_state j = (stateLookup STATE s).getD .unknown := by
  unfold stateNameOf at h
  rw [Option.bind_eq_some] at h
  obtain ⟨nm, hnm, hs⟩ := h
  rw [asStr_eq_some] at hs
  subst hs
  rw [except_toOption_eq_some, except_bind_ok] at hnm
  obtain ⟨st, hst, hname⟩ := hnm
  unfold _get_state _get_state_try
  rw [hst]
  simp only [Bind.bind, Except.bind]
  rw [hname]
  cases h3 : stateLookup STATE s with
  | none => simp [h3]
  | some v => simp [h3]

theorem _get_state_of_no_stateName (j : Json) (h : stateNameOf j = none) :
    _get_state j = .unknown := by
  unfold stateNameOf at h
  unfold _get_state _get_state_try
  cases hst : getItem j "state" with
  | error e => simp [Bind.bind, Except.bind, hst]
  | ok st =>
      cases hname : getItem st "name" with
      | error e => simp [Bind.bind, Except.bind, hst, hname]
      | ok nm =>
          rw [hst] at h
          simp only [Bind.bind, Except.bind] at h
          rw [hname] at h
          simp only [Except.toOption, Option.some_bind] at h
          cases nm <;> simp_all [asStr, Bind.bind, Except.bind]

/-- C5: the state mapper sends the six tabulated provider state names to
their abstract lifecycle states, and every other name — as well as a missing
or ill-shaped `state.name` path — to UNKNOWN; in the model it is a total
function (the source's bare `except` converts every lookup failure into
UNKNOWN rather than raising). -/
theorem c5_state_mapping :
    (∀ j, stateNameOf j = some "Starting" → _get_state j = .pending) ∧
    (∀ j, stateNameOf j = some "On" → _get_state j = .running) ∧
    (∀ j, stateNameOf j = some "Off" → _get_state j = .pending) ∧
    (∀ j, stateNameOf j = some "Restarting" → _get_state j = .rebooting) ∧
    (∀ j, stateNameOf j = some "Saving" → _get_state j = .pending) ∧
    (∀ j, stateNameOf j = some "Restoring" → _get_state j = .pending) ∧
    (∀ j s, stateNameOf j = some s →
      s ∉ (["Starting", "On", "Off", "Restarting", "Saving", "Restoring"] : List String) →
      _get_state j = .unknown) ∧
    (∀ j, stateNameOf j = none → _get_state j = .unknown) := by
  refine ⟨fun j h => ?_, fun j h => ?_, fun j h => ?_, fun j h => ?_, fun j h => ?_,
    fun j h => ?_, fun j s h hmem => ?_, fun j h => _get_state_of_no_stateName j h⟩
  · rw [_get_state_of_stateNameOf j _ h]; rfl
  · rw [_get_state_of_stateNameOf j _ h]; rfl
  · rw [_get_state_of_stateNameOf j _ h]; rfl
  · rw [_get_state_of_stateNameOf j _ h]; rfl
  · rw [_get_state_of_stateNameOf j _ h]; rfl
  · rw [_get_state_of_stateNameOf j _ h]; rfl
  · rw [_get_state_of_stateNameOf j s h, stateLookup_state_eq_none s hmem]; rfl

theorem c5_state_mapping_witness :
    _get_state (.obj [("state", .obj [("name", .str "Starting")])]) = .pending ∧
    _get_state (.obj [("state", .obj [("name", .str "On")])]) = .running ∧
    _get_state (.obj [("state", .obj [("name", .str "Restarting")])]) = .rebooting ∧
    _get_state (.obj [("state", .obj [("name", .str "Deleted")])]) = .unknown ∧
    _get_state (.obj [("ip", .null)]) = .unknown :=
  ⟨c5_state_mapping.1 _ rfl,
   c5_state_mapping.2.1 _ rfl,
   c5_state_mapping.2.2.2.1 _ rfl,
   c5_state_mapping.2.2.2.2.2.2.1 _ "Deleted" rfl (by decide),
   c5_state_mapping.2.2.2.2.2.2.2 _ rfl⟩

theorem _to_node_extra_password (el pw : Json) (n : GoGridNode)
    (h : _to_node el pw = .ok n) :
    n.extra_password = if pw.truthy then some pw else none := by
  simp only [_to_node] at h
  obtain ⟨ip, hip, h⟩ := except_bind_ok.mp h
  obtain ⟨idv, hid, h⟩ := except_bind_ok.mp h
  obtain ⟨name, hname, h⟩ := except_bind_ok.mp h
  obtain ⟨ram, hram, h⟩ := except_bind_ok.mp h
  obtain ⟨ramName, hramName, h⟩ := except_bind_ok.mp h
  obtain ⟨sandbox, hsandbox, h⟩ := except_bind_ok.mp h
  injection h with h
  subst h
  rfl

theorem mapNodes_empty_map_password (els : List Json) (nodes : List GoGridNode)
    (h : mapNodes [] els = .ok nodes) : ∀ n ∈ nodes, n.extra_password = none := by
  induction els generalizing nodes with
  | nil =>
      simp only [mapNodes] at h
      injection h with h
      subst h
      simp
  | cons el rest ih =>
      simp only [mapNodes] at h
      obtain ⟨idv, hid, h⟩ := except_bind_ok.mp h
      obtain ⟨n1, hn1, h⟩ := except_bind_ok.mp h
      obtain ⟨ns, hns, h⟩ := except_bind_ok.mp h
      injection h with h
      subst h
      intro x hx
      rcases List.mem_cons.mp hx with hx | hx
      · subst hx
        have hpw := _to_node_extra_password _ _ _ hn1
        simpa [dgetD, Json.truthy] using hpw
      · exact ih ns hns x hx

/-- C6: when the server-list fetch succeeds but the password-list fetch
raises the authentication error, `list_nodes` behaves exactly as with an
empty password list — it still returns the mapped nodes, none of which
carries a password. -/
theorem c6_list_nodes_swallows_auth_error :
    (∀ (serverRes : Json) (msg : String),
      list_nodes serverRes (.error (.invalidCreds msg)) =
        list_nodes serverRes (.ok (.obj [("list", .arr [])]))) ∧
    (∀ (serverRes : Json) (msg : String) (nodes : List GoGridNode),
      list_nodes serverRes (.error (.invalidCreds msg)) = .ok nodes →
      ∀ n ∈ nodes, n.extra_password = none) := by
  constructor
  · intro serverRes msg
    rfl
  · intro serverRes msg nodes h
    simp only [list_nodes] at h
    obtain ⟨pm, hpm, h⟩ := except_bind_ok.mp h
    injection hpm with hpm
    subst hpm
    obtain ⟨lv2, hlv2, h⟩ := except_bind_ok.mp h
    obtain ⟨els, hels, h⟩ := except_bind_ok.mp h
    exact mapNodes_empty_map_password els nodes h

theorem c6_list_nodes_swallows_auth_error_witness :
    list_nodes cServerRes (.error (.invalidCreds "403 Forbidden")) = .ok [cResolvedNode] ∧
    cResolvedNode.extra_password = none :=
  ⟨rfl,
   c6_list_nodes_swallows_auth_error.2 cServerRes "403 Forbidden" [cResolvedNode] rfl
     cResolvedNode (List.mem_singleton.mpr rfl)⟩

theorem addPassword_ok {m m2 : List (Json × Json)} {p : Json}
    (h : addPassword m p = .ok m2) :
    m2 = (match passwordEntry p with | some e => e :: m | none => m) := by
  unfold addPassword at h
  unfold passwordEntry
  cases hc : passwordPair p with
  | ok e =>
      rw [hc] at h
      injection h with h
      subst h
      simp [Except.toOption]
  | error e =>
      rw [hc] at h
      cases e <;> simp_all [Except.toOption]

theorem buildPasswordMap_ok {ps : List Json} {m0 m : List (Json × Json)}
    (h : buildPasswordMap ps m0 = .ok m) :
    m = (ps.filterMap passwordEntry).reverse ++ m0 := by
  induction ps generalizing m0 with
  | nil =>
      simp only [buildPasswordMap] at h
      injection h with h
      subst h
      simp
  | cons p ps ih =>
      simp only [buildPasswordMap] at h
      cases hc : addPassword m0 p with
      | error e => rw [hc] at h; cases h
      | ok m1 =>
          rw [hc] at h
          have he := addPassword_ok hc
          have hm := ih h
          subst hm
          cases hpe : passwordEntry p with
          | some e =>
              rw [hpe] at he
              subst he
              simp [List.filterMap_cons, hpe]
          | none =>
              rw [hpe] at he
              subst he
              simp [List.filterMap_cons, hpe]

theorem dgetD_eq_find (m : List (Json × Json)) (k : Json) :
    dgetD m k = ((m.find? (fun e => Json.beq e.1 k)).map (fun e => e.2)).getD .null := by
  induction m with
  | nil => rfl
  | cons e rest ih =>
      obtain ⟨k2, v⟩ := e
      cases hb : Json.beq k2 k <;>
        simp [dgetD, hb, ih, List.find?_cons_of_pos, List.find?_cons_of_neg]

theorem dgetD_buildPasswordMap {ps : List Json} {m : List (Json × Json)} (k : Json)
    (h : buildPasswordMap ps [] = .ok m) :
    dgetD m k = (match latestMatch ps k with | some pw => pw | none => .null) := by
  have hm := buildPasswordMap_ok h
  rw [List.append_nil] at hm
  subst hm
  rw [dgetD_eq_find]
  unfold latestMatch
  cases hf : (ps.filterMap passwordEntry).reverse.find? (fun e => Json.beq e.1 k) with
  | none => simp [hf]
  | some e => simp [hf]

theorem mapNodes_get {m : List (Json × Json)} {els : List Json} {nodes : List GoGridNode}
    (h : mapNodes m els = .ok nodes) :
    ∀ (i : Nat) (el : Json), els[i]? = some el →
      ∃ n idv, nodes[i]? = some n ∧ getAttrGet el "id" = .ok idv ∧
        _to_node el (dgetD m idv) = .ok n := by
  induction els generalizing nodes with
  | nil => intro i el hi; simp at hi
  | cons e rest ih =>
      simp only [mapNodes] at h
      obtain ⟨idv, hid, h⟩ := except_bind_ok.mp h
      obtain ⟨n1, hn1, h⟩ := except_bind_ok.mp h
      obtain ⟨ns, hns, h⟩ := except_bind_ok.mp h
      injection h with h
      subst h
      intro i el hi
      cases i with
      | zero =>
          simp only [List.getElem?_cons_zero, Option.some.injEq] at hi
          subst hi
          exact ⟨n1, idv, by simp, hid, hn1⟩
      | succ i2 =>
          simp only [List.getElem?_cons_succ] at hi
          simpa [List.getElem?_cons_succ] using ih hns i2 el hi

theorem list_nodes_ok_parts {serverRes pRes : Json} {nodes : List GoGridNode}
    (h : list_nodes serverRes (.ok pRes) = .ok nodes) :
    ∃ lv ps pm lv2 els,
      getItem pRes "list" = .ok lv ∧ iterElems lv = .ok ps ∧
      buildPasswordMap ps [] = .ok pm ∧
      getItem serverRes "list" = .ok lv2 ∧ iterElems lv2 = .ok els ∧
      mapNodes pm els = .ok nodes := by
  simp only [list_nodes] at h
  obtain ⟨lv, h1, h⟩ := except_bind_ok.mp h
  obtain ⟨ps, h2, h⟩ := except_bind_ok.mp h
  obtain ⟨pm, h3, h⟩ := except_bind_ok.mp h
  obtain ⟨lv2, h4, h⟩ := except_bind_ok.mp h
  obtain ⟨els, h5, h⟩ := except_bind_ok.mp h
  exact ⟨lv, ps, pm, lv2, els, h1, h2, h3, h4, h5, h⟩

/-- C7 as amended: `list_nodes` attaches a password to a node exactly
according to the most recent password record correlated with the node's
record identifier — a record contributes only when it carries both a
`server.id` and a `password` field (others are skipped), the latest
contribution for an identifier wins, and the attached value must be truthy
(a falsy password, like the empty string, is dropped by `if password:`);
a node with no correlated contribution keeps its password unset. -/
theorem c7_amended_password_correlation :
    ∀ (serverRes pRes : Json) (sEls ps : List Json) (nodes : List GoGridNode),
      getItem serverRes "list" = .ok (.arr sEls) →
      getItem pRes "list" = .ok (.arr ps) →
      list_nodes serverRes (.ok pRes) = .ok nodes →
      ∀ (i : Nat) (el : Json) (n : GoGridNode) (idv : Json),
        sEls[i]? = some el → nodes[i]? = some n →
        getAttrGet el "id" = .ok idv →
        n.extra_password = (match latestMatch ps idv with
          | some pw => if pw.truthy then some pw else none
          | none => none) := by
  intro serverRes pRes sEls ps nodes hs hp hln i el n idv hel hn hid
  obtain ⟨lv, psx, pm, lv2, els, h1, h2, h3, h4, h5, h6⟩ := list_nodes_ok_parts hln
  rw [hp] at h1
  injection h1 with h1
  rw [← h1] at h2
  simp only [iterElems] at h2
  injection h2 with h2
  rw [← h2] at h3
  rw [hs] at h4
  injection h4 with h4
  rw [← h4] at h5
  simp only [iterElems] at h5
  injection h5 with h5
  rw [← h5] at h6
  obtain ⟨n2, idv2, hn2, hid2, hton⟩ := mapNodes_get h6 i el hel
  have hnn : n2 = n := by
    rw [hn] at hn2
    injection hn2 with h7
    exact h7.symm
  subst hnn
  have hii : idv2 = idv := by
    rw [hid] at hid2
    injection hid2 with h8
    exact h8.symm
  subst hii
  have hpw := _to_node_extra_password _ _ _ hton
  rw [dgetD_buildPasswordMap idv2 h3] at hpw
  cases hl : latestMatch ps idv2 with
  | none =>
      rw [hl] at hpw
      simpa [Json.truthy] using hpw
  | some pw =>
      rw [hl] at hpw
      exact hpw

theorem c7_amended_password_correlation_witness :
    cResolvedNodeWithPassword.extra_password =
      (match latestMatch [cPwRecord] (Json.num 90967) with
        | some pw => if pw.truthy then some pw else none
        | none => none) :=
  c7_amended_password_correlation cServerRes cPasswordRes [cResolvedRecord] [cPwRecord]
    [cResolvedNodeWithPassword] rfl rfl rfl 0 cResolvedRecord cResolvedNodeWithPassword
    (Json.num 90967) rfl rfl rfl

/-- C7 fails on the code as stated: a password record can name a server
identifier equal to a node's identifier and yet attach no password, because
the record lacks a `password` field and is skipped by the `except KeyError`
arm — so "attaches exactly when some record's server identifier matches" is
too strong. -/
theorem c7_counterexample :
    list_nodes cServerRes (.ok cPasswordResNoPassword) = .ok [cResolvedNode] ∧
    cResolvedNode.extra_password = none ∧
    serverIdOf cPwRecordNoPassword = some cResolvedNode.id :=
  ⟨rfl, rfl, rfl⟩

/-- C1 fails on the code: with a provisioning response carrying no
identifier and polls on which no record ever matches, the loop exhausts its
20-minute budget and `create_node` then RETURNS the still-unidentified node
instead of raising.  The source's final guard reads `if id is None`, where
`id` is the Python builtin function (the local name `id` is never assigned
in `create_node`), so it is never `None` and the
"Wasn't able to wait for id allocation" exception is unreachable. -/
theorem c1_create_node_timeout_returns_unidentified :
    create_node cIpRes cAddRes cEmptyPolls = .ok cPendingNode ∧
    cPendingNode.id = Json.null :=
  ⟨rfl, rfl⟩

theorem scanMatch_none (node : GoGridNode) (ns : List GoGridNode)
    (hnode : node.public_ip ≠ [])
    (h : ∀ x ∈ ns, x.public_ip ≠ [] ∧ matchesRecord node x = false) :
    scanMatch node ns = .ok none := by
  induction ns with
  | nil => rfl
  | cons x rest ih =>
      obtain ⟨hx, hm⟩ := h x (List.mem_cons_self x rest)
      cases hxp : x.public_ip with
      | nil => exact absurd hxp hx
      | cons a tl =>
          cases hnp : node.public_ip with
          | nil => exact absurd hnp hnode
          | cons b tl2 =>
              simp only [matchesRecord, hxp, hnp, List.head?] at hm
              simp only [scanMatch, hxp, hnp, List.head?]
              rw [hm]
              simp only [Bool.false_eq_true, if_false]
              exact ih (fun y hy => h y (List.mem_cons_of_mem x hy))

theorem scanMatch_first (node m : GoGridNode) (pre post : List GoGridNode)
    (hnode : node.public_ip ≠ [])
    (hpre : ∀ x ∈ pre, x.public_ip ≠ [] ∧ matchesRecord node x = false)
    (hm : matchesRecord node m = true) :
    scanMatch node (pre ++ m :: post) = .ok (some m) := by
  induction pre with
  | nil =>
      simp only [List.nil_append]
      simp only [matchesRecord] at hm
      cases hmp : m.public_ip.head? with
      | none => rw [hmp] at hm; simp at hm
      | some a =>
          cases hnp : node.public_ip.head? with
          | none => rw [hmp, hnp] at hm; simp at hm
          | some b =>
              simp only [hmp, hnp] at hm
              simp only [scanMatch, hmp, hnp]
              rw [hm]
              simp
  | cons x rest ih =>
      obtain ⟨hx, hxm⟩ := hpre x (List.mem_cons_self x rest)
      cases hxp : x.public_ip with
      | nil => exact absurd hxp hx
      | cons a tl =>
          cases hnp : node.public_ip with
          | nil => exact absurd hnp hnode
          | cons b tl2 =>
              simp only [matchesRecord, hxp, hnp, List.head?] at hxm
              simp only [List.cons_append, scanMatch, hxp, hnp, List.head?]
              rw [hxm]
              simp only [Bool.false_eq_true, if_false]
              exact ih (fun y hy => hpre y (List.mem_cons_of_mem x hy))

theorem create_node_go_step (node : GoGridNode) (polls : Nat → Json × Except PyErr Json)
    (waittime fuel tick : Nat) (ns : List GoGridNode)
    (hid : Json.beq node.id .null = true) (hlt : waittime < 1200)
    (hdiv : waittime / 120 = tick)
    (hlist : list_nodes (polls tick).1 (polls tick).2 = .ok ns) :
    (scanMatch node ns = .ok none →
      create_node_go node polls waittime (fuel + 1) =
        create_node_go node polls (waittime + 120) fuel) ∧
    (∀ x, scanMatch node ns = .ok (some x) →
      create_node_go node polls waittime (fuel + 1) = .ok x) := by
  have hcond : (Json.beq node.id .null && decide (waittime < 1200)) = true := by
    rw [hid]
    simpa using hlt
  constructor
  · intro hscan
    simp only [create_node_go, hcond, if_true, hdiv, Bind.bind, Except.bind, hlist, hscan]
  · intro x hscan
    simp only [create_node_go, hcond, if_true, hdiv, Bind.bind, Except.bind, hlist, hscan]

theorem create_node_go_reach (node : GoGridNode) (polls : Nat → Json × Except PyErr Json)
    (m : GoGridNode) (k : Nat) (hk : k ≤ 9)
    (hid : Json.beq node.id .null = true)
    (hbefore : ∀ j, j < k → ∃ nsj, list_nodes (polls j).1 (polls j).2 = .ok nsj ∧
      scanMatch node nsj = .ok none)
    (hat : ∃ nsk, list_nodes (polls k).1 (polls k).2 = .ok nsk ∧
      scanMatch node nsk = .ok (some m)) :
    create_node_go node polls 0 10 = .ok m := by
  suffices h : ∀ d j, j + d = k → create_node_go node polls (120 * j) (10 - j) = .ok m by
    simpa using h k 0 (by omega)
  intro d
  induction d with
  | zero =>
      intro j hj
      have hjk : j = k := by omega
      subst hjk
      obtain ⟨nsk, hlist, hscan⟩ := hat
      obtain ⟨fuel, hfuel⟩ : ∃ fuel, 10 - j = fuel + 1 := ⟨9 - j, by omega⟩
      rw [hfuel]
      exact (create_node_go_step node polls (120 * j) fuel j nsk hid (by omega)
        (Nat.mul_div_cancel_left j (by norm_num)) hlist).2 m hscan
  | succ d ihd =>
      intro j hj
      have hjk : j < k := by omega
      obtain ⟨nsj, hlist, hscan⟩ := hbefore j hjk
      obtain ⟨fuel, hfuel⟩ : ∃ fuel, 10 - j = fuel + 1 := ⟨9 - j, by omega⟩
      rw [hfuel]
      rw [(create_node_go_step node polls (120 * j) fuel j nsj hid (by omega)
        (Nat.mul_div_cancel_left j (by norm_num)) hlist).1 hscan]
      have h120 : 120 * j + 120 = 120 * (j + 1) := by ring
      have hfe : fuel = 10 - (j + 1) := by omega
      rw [h120, hfe]
      exact ihd (j + 1) (by omega)

/-- C2: in an execution of `create_node` whose provisioning response yields
an unidentified node, if the `k`-th poll (within the deadline) is the first
whose `list_nodes` result contains a record with the node's first public
address and a present identifier, then `create_node` returns the first such
record of that poll.  The conclusion holds for EVERY poll function agreeing
with the given one up to tick `k`, so polls after the match can never be
consulted — no further polling is performed. -/
theorem c2_create_node_first_match :
    ∀ (ipRes addRes : Json) (polls : Nat → Json × Except PyErr Json) (node : GoGridNode)
      (k : Nat) (nodesK pre post : List GoGridNode) (m : GoGridNode),
      ex_create_node_nowait ipRes addRes = .ok node →
      node.id = Json.null →
      k ≤ 9 →
      (∀ j, j < k → ∃ nsj, list_nodes (polls j).1 (polls j).2 = .ok nsj ∧
        ∀ x ∈ nsj, x.public_ip ≠ [] ∧ matchesRecord node x = false) →
      list_nodes (polls k).1 (polls k).2 = .ok nodesK →
      nodesK = pre ++ m :: post →
      (∀ x ∈ pre, x.public_ip ≠ [] ∧ matchesRecord node x = false) →
      matchesRecord node m = true →
      ∀ polls2 : Nat → Json × Except PyErr Json,
        (∀ j, j ≤ k → polls2 j = polls j) →
        create_node ipRes addRes polls2 = .ok m := by
  intro ipRes addRes polls node k nodesK pre post m hnowait hid hk hbefore hat hsplit hpre
    hm polls2 hagree
  have hnp : node.public_ip ≠ [] := by
    simp only [matchesRecord] at hm
    cases hmp : m.public_ip.head? with
    | none => rw [hmp] at hm; simp at hm
    | some a =>
        cases hnp2 : node.public_ip.head? with
        | none => rw [hmp, hnp2] at hm; simp at hm
        | some b =>
            intro hnil
            rw [hnil] at hnp2
            cases hnp2
  have hidb : Json.beq node.id .null = true := by rw [hid]; rfl
  simp only [create_node] at *
  rw [hnowait]
  simp only [Bind.bind, Except.bind]
  apply create_node_go_reach node polls2 m k hk hidb
  · intro j hj
    obtain ⟨nsj, hlist, hnomatch⟩ := hbefore j hj
    refine ⟨nsj, ?_, scanMatch_none node nsj hnp hnomatch⟩
    rw [hagree j (by omega)]
    exact hlist
  · refine ⟨nodesK, ?_, ?_⟩
    · rw [hagree k (by omega)]
      exact hat
    · rw [hsplit]
      exact scanMatch_first node m pre post hnp hpre hm

theorem c2_create_node_first_match_witness :
    create_node cIpRes cAddRes cMatchPolls = .ok cResolvedNode :=
  c2_create_node_first_match cIpRes cAddRes cMatchPolls cPendingNode 0
    [cResolvedNode] [] [] cResolvedNode rfl rfl (by decide)
    (fun j hj => absurd hj (by omega))
    rfl rfl
    (fun x hx => absurd hx (List.not_mem_nil x))
    rfl cMatchPolls (fun j hj => rfl)

theorem decBytes_strip (n : Nat) (hn : n ≠ 0) :
    (decBytes n).reverse.map (fun x => x - 48) = Nat.digits 10 n := by
  unfold decBytes
  cases n with
  | zero => exact absurd rfl hn
  | succ k =>
      simp only [List.reverse_reverse, List.map_map]
      have : ((fun x => x - 48) ∘ fun x => x + 48) = id := by
        funext x
        simp
      rw [this, List.map_id]

theorem decBytes_inj {a b : Nat} (h : decBytes a = decBytes b) : a = b := by
  have hmap : (decBytes a).reverse.map (fun x => x - 48) =
      (decBytes b).reverse.map (fun x => x - 48) := by rw [h]
  by_cases ha : a = 0 <;> by_cases hb : b = 0
  · rw [ha, hb]
  · subst ha
    rw [decBytes_strip b hb] at hmap
    have hofd := Nat.ofDigits_digits 10 b
    rw [← hmap] at hofd
    simp only [decBytes, List.reverse_cons, List.reverse_nil, List.nil_append,
      List.map_cons, List.map_nil, Nat.ofDigits] at hofd
    omega
  · subst hb
    rw [decBytes_strip a ha] at hmap
    have hofd := Nat.ofDigits_digits 10 a
    rw [hmap] at hofd
    simp only [decBytes, List.reverse_cons, List.reverse_nil, List.nil_append,
      List.map_cons, List.map_nil, Nat.ofDigits] at hofd
    omega
  · rw [decBytes_strip a ha, decBytes_strip b hb] at hmap
    have hofd := congrArg (Nat.ofDigits 10) hmap
    rw [Nat.ofDigits_digits, Nat.ofDigits_digits] at hofd
    exact hofd

theorem md5core_lt1 (msg : List Nat) : (md5core msg).1 < M32 :=
  Nat.mod_lt _ (by norm_num [M32])

theorem md5core_lt2 (msg : List Nat) : (md5core msg).2.1 < M32 :=
  Nat.mod_lt _ (by norm_num [M32])

theorem md5core_lt3 (msg : List Nat) : (md5core msg).2.2.1 < M32 :=
  Nat.mod_lt _ (by norm_num [M32])

theorem md5core_lt4 (msg : List Nat) : (md5core msg).2.2.2 < M32 :=
  Nat.mod_lt _ (by norm_num [M32])

/-- C9 fails on the code in its final conjunct: signatures are 128-bit MD5
digests, so over the infinitely many timestamps the map from timestamp to
signature cannot be injective — for a fixed identifier and secret there
exist two different clock readings with equal signatures (pigeonhole; no
explicit collision is exhibited, only existence). -/
theorem c9_counterexample :
    ¬ ∀ (key secret : List Nat) (t1 t2 : Nat), t1 ≠ t2 →
        get_signature key secret t1 ≠ get_signature key secret t2 := by
  intro hall
  obtain ⟨t1, t2, hne, heq⟩ := Finite.exists_ne_map_eq_of_infinite
    (fun t : Nat =>
      ((⟨(md5core (decBytes t)).1, md5core_lt1 _⟩ : Fin M32),
       (⟨(md5core (decBytes t)).2.1, md5core_lt2 _⟩ : Fin M32),
       (⟨(md5core (decBytes t)).2.2.1, md5core_lt3 _⟩ : Fin M32),
       (⟨(md5core (decBytes t)).2.2.2, md5core_lt4 _⟩ : Fin M32)))
  refine hall [] [] t1 t2 hne ?_
  simp only [Prod.mk.injEq, Fin.mk.injEq] at heq
  obtain ⟨e1, e2, e3, e4⟩ := heq
  have hcore : md5core (decBytes t1) = md5core (decBytes t2) :=
    Prod.ext e1 (Prod.ext e2 (Prod.ext e3 e4))
  unfold get_signature
  simp only [List.nil_append]
  rw [hcore]

/-- C9 as amended: the signature is the hexadecimal MD5 digest of
identifier ‖ secret ‖ decimal timestamp, hence deterministic for a fixed
(identifier, secret, timestamp) triple; two calls at different timestamps
hash DISTINCT input strings (the decimal timestamp is recoverable from the
concatenation), but their 128-bit digests are not guaranteed distinct. -/
theorem c9_amended_signature :
    (∀ (key secret : List Nat) (t : Nat),
      get_signature key secret t = md5hex (key ++ secret ++ decBytes t)) ∧
    (∀ (key secret : List Nat) (t1 t2 : Nat), t1 = t2 →
      get_signature key secret t1 = get_signature key secret t2) ∧
    (∀ (key secret : List Nat) (t1 t2 : Nat), t1 ≠ t2 →
      key ++ secret ++ decBytes t1 ≠ key ++ secret ++ decBytes t2) := by
  refine ⟨fun key secret t => rfl, fun key secret t1 t2 h => by rw [h], ?_⟩
  intro key secret t1 t2 hne heq
  exact hne (decBytes_inj (List.append_cancel_left heq))

theorem c9_amended_signature_witness :
    get_signature [107] [115] 5 = md5hex ([107] ++ [115] ++ decBytes 5) ∧
    [107] ++ [115] ++ decBytes 1 ≠ [107] ++ [115] ++ decBytes 2 :=
  ⟨c9_amended_signature.1 [107] [115] 5,
   c9_amended_signature.2.2 [107] [115] 1 2 (by decide)⟩
